import Mathlib

/-!
# Sajilo bicep tracker: angle, feedback, score and rep submission

A shallow embedding of `frontend/src/Exercises/bicep/bicep.jsx`.

* JavaScript numbers are read as elements of a linearly ordered field `R`
  (the reals for the bounds on the angle); `Math.atan2` and `Math.PI`
  are supplied by a `JSMath R` record, `Math.abs` and `Math.max` are the
  order-theoretic `|·|` and `max`. Rounding of IEEE doubles is not
  modelled, so nothing is stated about exact values of trigonometric
  results.
* React state hooks and the effects of the component (HTTP posts, console
  errors, canvas commands) are fields of one record, `Component R`, that
  is threaded through a state-and-exception monad `JS R`.
-/

namespace Sajilo

/-! ## Data model -/

/-- A pose landmark; the component reads only the `x` and `y` fields. -/
structure Landmark (R : Type) where
  x : R
  y : R

/-- The frame result handed to `pose.onResults`; `poseLandmarks` is absent
when no person was detected. -/
structure Results (R : Type) where
  poseLandmarks : Option (List (Landmark R))

/-- The part of the JavaScript `Math` object the component uses that is not
field arithmetic: `Math.atan2(y, x)` and `Math.PI`. -/
structure JSMath (R : Type) where
  atan2 : R → R → R
  PI : R

/-- Commands issued on the 2D canvas context. -/
inductive CanvasOp (R : Type) where
  | clearRect (x y w h : R)
  | save
  | lineWidth (w : R)
  | strokeStyle (c : String)
  | beginPath
  | moveTo (x y : R)
  | lineTo (x y : R)
  | stroke
  | arc (x y r a0 a1 : R)
  | fillStyle (c : String)
  | fill
  | restore

/-- The body `response.data` of a reply of the counting service. -/
structure ResponseData where
  reps : Int

/-- A reply of `axios.post`. -/
structure Response where
  data : ResponseData

/-- The `useState` cells of `ExercisePose` together with the record of the
effects it has performed: angles posted to the counting service, messages
written with `console.error`, and canvas commands. -/
structure Component (R : Type) where
  feedback : String
  isCameraActive : Bool
  isPaused : Bool
  timer : Nat
  repCount : Int
  performanceScore : R
  posted : List R
  consoleErrors : List String
  canvas : List (CanvasOp R)

/-- The initial values of the state hooks, with no effect performed yet. -/
def Component.initial (R : Type) [OfNat R 50] : Component R :=
  { feedback := "Press Start to begin"
    isCameraActive := false
    isPaused := false
    timer := 0
    repCount := 0
    performanceScore := 50
    posted := []
    consoleErrors := []
    canvas := [] }

/-- Computations of the component: a computation started in a component
state ends with a value or a thrown error, and with a final component
state. -/
def JS (R : Type) (α : Type) : Type :=
  Component R → Except String α × Component R

/-- Sequencing is left to right; a throw skips the rest, and the state
written before the throw is kept. -/
instance (R : Type) : Monad (JS R) where
  pure a := fun s => (Except.ok a, s)
  bind m f := fun s =>
    match m s with
    | (Except.ok a, s1) => f a s1
    | (Except.error e, s1) => (Except.error e, s1)

/-- The statements `throw` and `try ... catch`: the handler runs from the
state reached at the throw. -/
instance (R : Type) : MonadExcept String (JS R) where
  throw e := fun s => (Except.error e, s)
  tryCatch m h := fun s =>
    match m s with
    | (Except.ok a, s1) => (Except.ok a, s1)
    | (Except.error e, s1) => h e s1

/-- Run a computation from a component state. -/
def JS.exec {R α : Type} (m : JS R α) (s : Component R) : Except String α × Component R :=
  m s

/-- A write to the component record. -/
def JS.update {R : Type} (f : Component R → Component R) : JS R Unit :=
  fun s => (Except.ok (), f s)

/-- The transport behind `axios.post`: for the angle in the request body it
yields a response, or fails with an error. -/
abbrev Transport (R : Type) : Type := R → Except String Response

section Ops

variable {R : Type}

def setFeedback (msg : String) : JS R Unit :=
  JS.update fun s => { s with feedback := msg }

def setRepCount (n : Int) : JS R Unit :=
  JS.update fun s => { s with repCount := n }

def setPerformanceScore (v : R) : JS R Unit :=
  JS.update fun s => { s with performanceScore := v }

/-- The effect `console.error('Error sending rep data:', error)`. -/
def consoleError (label error : String) : JS R Unit :=
  JS.update fun s => { s with consoleErrors := s.consoleErrors ++ [label ++ " " ++ error] }

/-- The effect of one canvas command. -/
def draw (op : CanvasOp R) : JS R Unit :=
  JS.update fun s => { s with canvas := s.canvas ++ [op] }

/-- The call `axios.post` with the angle as request body: the request is recorded, then
the transport decides between a response and a thrown error. -/
def axiosPost (post : Transport R) (angle : R) : JS R Response := do
  JS.update fun s => { s with posted := s.posted ++ [angle] }
  match post angle with
  | .ok response => pure response
  | .error e => throw e

/-- Reading a field of `landmarks[i]`: a missing entry is `undefined` and
the read of its `x` or `y` throws a `TypeError`. In `calculateExercise`
every such read happens inside `calculateAngle`, before the first state
update, so the throw is raised where the entry is fetched. -/
def landmarkAt (landmarks : List (Landmark R)) (i : Nat) : JS R (Landmark R) :=
  match landmarks[i]? with
  | some p => pure p
  | none => throw "TypeError"

variable [LinearOrderedField R]

/-- Source: `calculateAngle`, lines 129-134. -/
def calculateAngle (M : JSMath R) (a b c : Landmark R) : R :=
  let radians := M.atan2 (c.y - b.y) (c.x - b.x) - M.atan2 (a.y - b.y) (a.x - b.x)
  let angle := |(radians * 180) / M.PI|
  if angle > 180 then 360 - angle else angle

/-- Source: the feedback cascade of `calculateExercise`, lines 100-108,
as a function of `currentAngle`; the result is the argument of
`setFeedback`. -/
def classifyFeedback (currentAngle : R) : String :=
  if currentAngle < 30 then
    "Keep your elbows close to your body."
  else if currentAngle > 160 then
    "Extend fully at the bottom of your curl."
  else if currentAngle > 80 ∧ currentAngle < 100 then
    "Halfway there! Keep curling."
  else
    "Maintain good posture! Keep going."

/-- Source: the score expression of `calculateExercise`, line 111:
`Math.max(0, 100 - Math.abs(currentAngle - 90))`. -/
def computeScore (currentAngle : R) : R :=
  max 0 (100 - |currentAngle - 90|)

/-- Source: `sendRepData`, lines 118-127. -/
def sendRepData (post : Transport R) (currentAngle : R) : JS R Unit :=
  tryCatch
    (do
      let response ← axiosPost post currentAngle
      setRepCount response.data.reps)
    (fun error => consoleError "Error sending rep data:" error)

/-- Source: `calculateExercise`, lines 82-116. -/
def calculateExercise (M : JSMath R) (post : Transport R) (results : Results R) :
    JS R Unit := do
  let landmarks ← match results.poseLandmarks with
    | some l => pure l
    | none => throw "TypeError"
  let leftShoulder ← landmarkAt landmarks 11
  let leftElbow ← landmarkAt landmarks 13
  let leftWrist ← landmarkAt landmarks 15
  let rightShoulder ← landmarkAt landmarks 12
  let rightElbow ← landmarkAt landmarks 14
  let rightWrist ← landmarkAt landmarks 16
  let leftAngle := calculateAngle M leftShoulder leftElbow leftWrist
  let rightAngle := calculateAngle M rightShoulder rightElbow rightWrist
  let isLeftCurl : Bool := decide (leftWrist.y < rightWrist.y)
  let currentAngle := if isLeftCurl then leftAngle else rightAngle
  setFeedback (classifyFeedback currentAngle)
  let score := computeScore currentAngle
  setPerformanceScore score
  sendRepData post currentAngle

/-- Reading `poseLandmarks[i]` in `drawArmPose`, where `poseLandmarks` may
be absent: indexing an absent array throws a `TypeError`, and so does the
read of a field of a missing entry. -/
def entryAt (poseLandmarks : Option (List (Landmark R))) (i : Nat) : JS R (Landmark R) :=
  match poseLandmarks with
  | some l => landmarkAt l i
  | none => throw "TypeError"

/-- Source: `drawLine` inside `drawArmPose`, lines 145-150. The arguments
of `moveTo` are evaluated after `beginPath` has been issued. -/
def drawLine (poseLandmarks : Option (List (Landmark R))) (start finish : Nat) :
    JS R Unit := do
  draw CanvasOp.beginPath
  let p ← entryAt poseLandmarks start
  draw (CanvasOp.moveTo (p.x * 640) (p.y * 480))
  let q ← entryAt poseLandmarks finish
  draw (CanvasOp.lineTo (q.x * 640) (q.y * 480))
  draw CanvasOp.stroke

/-- Source: `drawArmPose`, lines 136-173. Reading `results.poseLandmarks`
does not throw; the first read that can throw is the one inside the first
`drawLine`, after `save`, `lineWidth`, `strokeStyle` and `beginPath`. -/
def drawArmPose (M : JSMath R) (results : Results R) : JS R Unit := do
  let poseLandmarks := results.poseLandmarks
  let armLandmarks : List Nat := [11, 13, 15, 12, 14, 16]
  draw CanvasOp.save
  draw (CanvasOp.lineWidth 4)
  draw (CanvasOp.strokeStyle "lime")
  drawLine poseLandmarks 11 13
  drawLine poseLandmarks 13 15
  drawLine poseLandmarks 12 14
  drawLine poseLandmarks 14 16
  drawLine poseLandmarks 11 12
  armLandmarks.forM fun index => do
    match poseLandmarks with
    | none => throw "TypeError"
    | some l =>
      draw CanvasOp.beginPath
      let landmark ← landmarkAt l index
      draw (CanvasOp.arc (landmark.x * 640) (landmark.y * 480) 5 0 (2 * M.PI))
      draw (CanvasOp.fillStyle "aqua")
      draw CanvasOp.fill
  draw CanvasOp.restore

/-- Source: the handler passed to `pose.onResults`, lines 34-51. The canvas
element is 640 by 480. `calculateExercise` is an async function whose
promise the handler drops, so an error thrown inside it does not reach the
handler. -/
def onResults (M : JSMath R) (post : Transport R) (results : Results R) : JS R Unit := do
  if results.poseLandmarks.isNone then
    setFeedback "No person detected"
  else
    draw (CanvasOp.clearRect 0 0 640 480)
    drawArmPose M results
    tryCatch (calculateExercise M post results) (fun _ => pure ())

end Ops

/-- A frame with seventeen landmarks in which the left wrist (index 15) is
at height 0.3 and the right wrist (index 16) at height 0.5. -/
def sampleFrame (R : Type) [LinearOrderedField R] : List (Landmark R) :=
  [⟨0.5, 0.1⟩, ⟨0.5, 0.1⟩, ⟨0.5, 0.1⟩, ⟨0.5, 0.1⟩, ⟨0.5, 0.1⟩, ⟨0.5, 0.1⟩,
   ⟨0.5, 0.1⟩, ⟨0.5, 0.1⟩, ⟨0.5, 0.1⟩, ⟨0.5, 0.1⟩, ⟨0.5, 0.1⟩,
   ⟨0.6, 0.2⟩, ⟨0.4, 0.2⟩, ⟨0.6, 0.4⟩, ⟨0.4, 0.4⟩, ⟨0.8, 0.3⟩, ⟨0.4, 0.5⟩]

/-- A transport that answers every request with the given count. -/
def replyWith {R : Type} (n : Int) : Transport R :=
  fun _ => Except.ok ⟨⟨n⟩⟩

/-- A transport that fails on every request. -/
def failWith {R : Type} (e : String) : Transport R :=
  fun _ => Except.error e

/-- The real-number reading of `Math`: `atan2 y x` is the argument of the
complex number `x + y i`, with values in `(-π, π]` and `atan2 0 0 = 0`, and
`PI` is `π`. It is exact, where the program computes in IEEE doubles; it is
used only for bounds that do not depend on rounding, and no result about an
exact value of `calculateAngle` is drawn from it. -/
noncomputable def realMath : JSMath ℝ where
  atan2 := fun y x => Complex.arg ⟨x, y⟩
  PI := Real.pi

/-! ## Running computations -/

section Exec

variable {R : Type}

theorem exec_pure {α : Type} (a : α) (s : Component R) :
    JS.exec (pure a : JS R α) s = (Except.ok a, s) := rfl

theorem exec_throw {α : Type} (e : String) (s : Component R) :
    JS.exec (throw e : JS R α) s = (Except.error e, s) := rfl

theorem exec_update (f : Component R → Component R) (s : Component R) :
    JS.exec (JS.update f) s = (Except.ok (), f s) := rfl

theorem exec_bind {α β : Type} (m : JS R α) (f : α → JS R β) (s : Component R) :
    JS.exec (m >>= f) s =
      match JS.exec m s with
      | (Except.ok a, s1) => JS.exec (f a) s1
      | (Except.error e, s1) => (Except.error e, s1) := rfl

theorem exec_tryCatch {α : Type} (m : JS R α) (h : String → JS R α) (s : Component R) :
    JS.exec (tryCatch m h) s =
      match JS.exec m s with
      | (Except.ok a, s1) => (Except.ok a, s1)
      | (Except.error e, s1) => JS.exec (h e) s1 := rfl

theorem exec_landmarkAt {landmarks : List (Landmark R)} {i : Nat} {p : Landmark R}
    (h : landmarks[i]? = some p) (s : Component R) :
    JS.exec (landmarkAt landmarks i) s = (Except.ok p, s) := by
  simp [landmarkAt, h, exec_pure]

end Exec

/-! ## Feedback and score as functions of the angle -/

section Pure

variable {R : Type} [LinearOrderedField R]

/-- C3: `calculateAngle(a, b, c) = calculateAngle(c, b, a)`, for every
`Math.atan2` and `Math.PI` and for all points, so in particular for every
triple with `a ≠ b` and `c ≠ b`. -/
theorem calculateAngle_symm (M : JSMath R) (a b c : Landmark R) :
    calculateAngle M a b c = calculateAngle M c b a := by
  have h : |(M.atan2 (c.y - b.y) (c.x - b.x) - M.atan2 (a.y - b.y) (a.x - b.x)) * 180 / M.PI|
      = |(M.atan2 (a.y - b.y) (a.x - b.x) - M.atan2 (c.y - b.y) (c.x - b.x)) * 180 / M.PI| := by
    rw [← abs_neg]
    congr 1
    ring
  simp only [calculateAngle, h]

/-- C4: the feedback of `calculateExercise` as a function of the angle is
the elbows message iff `angle < 30`, the extend message iff `angle > 160`,
the halfway message iff `80 < angle < 100`, and the posture message in
every other case; 30, 80, 100 and 160 give the posture message, 29.9 the
elbows message, 160.1 the extend message and 90 the halfway message. -/
theorem classifyFeedback_spec (angle : R) :
    (classifyFeedback angle = "Keep your elbows close to your body." ↔ angle < 30) ∧
    (classifyFeedback angle = "Extend fully at the bottom of your curl." ↔ angle > 160) ∧
    (classifyFeedback angle = "Halfway there! Keep curling." ↔ 80 < angle ∧ angle < 100) ∧
    (classifyFeedback angle = "Maintain good posture! Keep going." ↔
      ¬ angle < 30 ∧ ¬ angle > 160 ∧ ¬ (80 < angle ∧ angle < 100)) ∧
    classifyFeedback (30 : R) = "Maintain good posture! Keep going." ∧
    classifyFeedback (80 : R) = "Maintain good posture! Keep going." ∧
    classifyFeedback (100 : R) = "Maintain good posture! Keep going." ∧
    classifyFeedback (160 : R) = "Maintain good posture! Keep going." ∧
    classifyFeedback (29.9 : R) = "Keep your elbows close to your body." ∧
    classifyFeedback (160.1 : R) = "Extend fully at the bottom of your curl." ∧
    classifyFeedback (90 : R) = "Halfway there! Keep curling." := by
  refine ⟨?_, ?_, ?_, ?_, ?_, ?_, ?_, ?_, ?_, ?_, ?_⟩
  · unfold classifyFeedback
    split_ifs with h1 h2 h3 <;> simp [h1]
  · unfold classifyFeedback
    split_ifs with h1 h2 h3
    · simp only [String.reduceEq, false_iff, not_lt]
      linarith
    · simp [h2]
    · simp [h2]
    · simp [h2]
  · unfold classifyFeedback
    split_ifs with h1 h2 h3
    · simp only [String.reduceEq, false_iff, not_and, not_lt]
      intro h
      linarith
    · simp only [String.reduceEq, false_iff, not_and, not_lt]
      intro _
      linarith
    · simp [h3.1, h3.2]
    · simpa using h3
  · unfold classifyFeedback
    split_ifs with h1 h2 h3
    · simp [h1]
    · simp [h2]
    · simp [h3.1, h3.2]
    · simp only [true_iff]
      exact ⟨h1, h2, h3⟩
  all_goals
    unfold classifyFeedback
    norm_num

theorem computeScore_at_zero : computeScore (0 : R) = 10 := by
  have h : |(0 : R) - 90| = 90 := by
    rw [abs_of_nonpos (by norm_num)]
    norm_num
  rw [computeScore, h]
  norm_num

/-- C5 as amended: the score is 100 at 90, 10 at 0 and 0 at 190. -/
theorem computeScore_samples :
    computeScore (90 : R) = 100 ∧ computeScore (0 : R) = 10 ∧ computeScore (190 : R) = 0 := by
  refine ⟨?_, computeScore_at_zero, ?_⟩
  · simp [computeScore]
  · have h : |(190 : R) - 90| = 100 := by
      rw [abs_of_nonneg (by norm_num)]
      norm_num
    rw [computeScore, h]
    norm_num

/-- C6: the score lies in `[0, 100]`, is 100 exactly at `angle = 90`, and
is 0 exactly when `|angle - 90| ≥ 100`. -/
theorem computeScore_range (angle : R) :
    0 ≤ computeScore angle ∧ computeScore angle ≤ 100 ∧
    (computeScore angle = 100 ↔ angle = 90) ∧
    (computeScore angle = 0 ↔ |angle - 90| ≥ 100) := by
  have habs : 0 ≤ |angle - 90| := abs_nonneg _
  refine ⟨le_max_left _ _, ?_, ?_, ?_⟩
  · exact max_le (by norm_num) (by linarith)
  · constructor
    · intro h
      unfold computeScore at h
      rcases max_choice (0 : R) (100 - |angle - 90|) with h0 | h0
      · rw [h0] at h
        norm_num at h
      · rw [h0] at h
        have h2 : |angle - 90| = 0 := by linarith
        have h3 := abs_eq_zero.mp h2
        linarith
    · intro h
      subst h
      simp [computeScore]
  · constructor
    · intro h
      unfold computeScore at h
      have h1 : 100 - |angle - 90| ≤ max 0 (100 - |angle - 90|) := le_max_right _ _
      rw [h] at h1
      show 100 ≤ |angle - 90|
      linarith
    · intro h
      unfold computeScore
      exact max_eq_left (by linarith [show 100 ≤ |angle - 90| from h])

end Pure

/-- C5, as stated, fails: the score at 0 is 10, not 0. -/
theorem computeScore_zero_ne_zero :
    ¬ (computeScore (90 : ℝ) = 100 ∧ computeScore (0 : ℝ) = 0 ∧ computeScore (190 : ℝ) = 0) := by
  rintro ⟨-, h, -⟩
  have h10 : computeScore (0 : ℝ) = 10 := computeScore_at_zero
  rw [h10] at h
  norm_num at h

/-! ## The angle over the reals -/

section RealAngle
open Real

theorem atan2_real_range (y x : ℝ) : -π < realMath.atan2 y x ∧ realMath.atan2 y x ≤ π :=
  ⟨Complex.neg_pi_lt_arg _, Complex.arg_le_pi _⟩

/-- Folding `|d|` taken in degrees: the value computed by `calculateAngle`
from the difference `d` of the two polar angles. -/
theorem calculateAngle_real_eq (a b c : Landmark ℝ) :
    calculateAngle realMath a b c =
      (if π < |realMath.atan2 (c.y - b.y) (c.x - b.x) - realMath.atan2 (a.y - b.y) (a.x - b.x)|
        then 2 * π - |realMath.atan2 (c.y - b.y) (c.x - b.x) - realMath.atan2 (a.y - b.y) (a.x - b.x)|
        else |realMath.atan2 (c.y - b.y) (c.x - b.x) - realMath.atan2 (a.y - b.y) (a.x - b.x)|)
        * 180 / π := by
  have hpi : 0 < π := Real.pi_pos
  have hPI : realMath.PI = π := rfl
  simp only [calculateAngle, hPI]
  generalize realMath.atan2 (c.y - b.y) (c.x - b.x) - realMath.atan2 (a.y - b.y) (a.x - b.x) = d
  have habs : |d * 180 / π| = |d| * 180 / π := by
    rw [abs_div, abs_mul, abs_of_pos hpi, abs_of_pos (by norm_num : (0:ℝ) < 180)]
  simp only [habs]
  have hiff : |d| * 180 / π > 180 ↔ π < |d| := by
    rw [gt_iff_lt, lt_div_iff₀ hpi]
    constructor <;> intro h <;> nlinarith
  by_cases h : π < |d|
  · rw [if_pos (hiff.mpr h), if_pos h]
    field_simp
    ring
  · rw [if_neg (fun h2 => h (hiff.mp h2)), if_neg h]

theorem calculateAngle_real_bounds (a b c : Landmark ℝ) :
    0 ≤ calculateAngle realMath a b c ∧ calculateAngle realMath a b c ≤ 180 := by
  have hpi : 0 < π := Real.pi_pos
  have r1 := atan2_real_range (c.y - b.y) (c.x - b.x)
  have r2 := atan2_real_range (a.y - b.y) (a.x - b.x)
  rw [calculateAngle_real_eq]
  generalize realMath.atan2 (c.y - b.y) (c.x - b.x) = p at r1 ⊢
  generalize realMath.atan2 (a.y - b.y) (a.x - b.x) = q at r2 ⊢
  have h0 : 0 ≤ |p - q| := abs_nonneg _
  have h2 : |p - q| ≤ 2 * π := by
    rw [abs_le]
    exact ⟨by linarith [r1.1, r2.2], by linarith [r1.2, r2.1]⟩
  by_cases h : π < |p - q|
  · rw [if_pos h]
    constructor
    · apply div_nonneg _ hpi.le
      nlinarith
    · rw [div_le_iff₀ hpi]
      nlinarith
  · rw [if_neg h]
    constructor
    · apply div_nonneg _ hpi.le
      nlinarith
    · rw [div_le_iff₀ hpi]
      nlinarith

/-- C1: over the reals, with `atan2` in `(-π, π]` and `atan2 0 0 = 0`,
`calculateAngle(a, b, c)` lies in `[0, 180]` for every three points,
degenerate ones included. -/
theorem calculateAngle_mem_range (a b c : Landmark ℝ) :
    (∀ y x : ℝ, -π < realMath.atan2 y x ∧ realMath.atan2 y x ≤ π) ∧
    realMath.atan2 0 0 = 0 ∧
    0 ≤ calculateAngle realMath a b c ∧ calculateAngle realMath a b c ≤ 180 := by
  refine ⟨atan2_real_range, ?_, calculateAngle_real_bounds a b c⟩
  show Complex.arg ⟨0, 0⟩ = 0
  exact Complex.arg_zero

end RealAngle

/-! ## The per-frame handler -/

section Frame

variable {R : Type}

theorem sendRepData_exec (post : Transport R) (currentAngle : R) (s : Component R) :
    (sendRepData post currentAngle).exec s =
      match post currentAngle with
      | Except.ok response =>
          (Except.ok (),
            { s with posted := s.posted ++ [currentAngle], repCount := response.data.reps })
      | Except.error error =>
          (Except.ok (),
            { s with
              posted := s.posted ++ [currentAngle]
              consoleErrors := s.consoleErrors ++ ["Error sending rep data: " ++ error] }) := by
  cases h : post currentAngle <;>
    simp [sendRepData, axiosPost, exec_bind, exec_tryCatch, exec_update, exec_pure, exec_throw,
      setRepCount, consoleError, h]

/-- C9: `sendRepData` posts the angle and returns normally whatever the
transport does; after a response `repCount` is the `reps` value of the
response, after a transport error `repCount` is what it was and the error
is written to the console. Receiving `reps = 5` makes `repCount` 5, and a
following transport failure leaves it at 5. -/
theorem sendRepData_spec (post : Transport R) (currentAngle : R) (s : Component R) :
    ((sendRepData post currentAngle).exec s).1 = Except.ok () ∧
    ((sendRepData post currentAngle).exec s).2.posted = s.posted ++ [currentAngle] ∧
    ((sendRepData post currentAngle).exec s).2.repCount =
      (match post currentAngle with
        | Except.ok response => response.data.reps
        | Except.error _ => s.repCount) ∧
    ((sendRepData (replyWith 5) currentAngle).exec s).2.repCount = 5 ∧
    (∀ (e : String) (nextAngle : R),
      ((sendRepData (failWith e) nextAngle).exec
        ((sendRepData (replyWith 5) currentAngle).exec s).2) =
        (Except.ok (),
          { s with
            repCount := 5
            posted := s.posted ++ [currentAngle] ++ [nextAngle]
            consoleErrors := s.consoleErrors ++ ["Error sending rep data: " ++ e] })) := by
  refine ⟨?_, ?_, ?_, ?_, ?_⟩
  · rw [sendRepData_exec]
    cases post currentAngle <;> rfl
  · rw [sendRepData_exec]
    cases post currentAngle <;> rfl
  · rw [sendRepData_exec]
    cases post currentAngle <;> rfl
  · rw [sendRepData_exec]
    rfl
  · intro e nextAngle
    rw [sendRepData_exec, sendRepData_exec]
    rfl

variable [LinearOrderedField R]

theorem calculateExercise_exec (M : JSMath R) (post : Transport R) (s : Component R)
    (lm : List (Landmark R)) (ls le lw rs re rw : Landmark R)
    (h11 : lm[11]? = some ls) (h13 : lm[13]? = some le) (h15 : lm[15]? = some lw)
    (h12 : lm[12]? = some rs) (h14 : lm[14]? = some re) (h16 : lm[16]? = some rw) :
    (calculateExercise M post ⟨some lm⟩).exec s =
      (sendRepData post
          (if lw.y < rw.y then calculateAngle M ls le lw else calculateAngle M rs re rw)).exec
        { s with
          feedback := classifyFeedback
            (if lw.y < rw.y then calculateAngle M ls le lw else calculateAngle M rs re rw)
          performanceScore := computeScore
            (if lw.y < rw.y then calculateAngle M ls le lw else calculateAngle M rs re rw) } := by
  simp [calculateExercise, exec_bind, exec_pure, exec_update, exec_landmarkAt h11,
    exec_landmarkAt h13, exec_landmarkAt h15, exec_landmarkAt h12, exec_landmarkAt h14,
    exec_landmarkAt h16, setFeedback, setPerformanceScore]

/-- C7: on a landmark set containing landmarks 11 to 16, `calculateExercise`
uses (for the feedback, for the score and in the request it posts) the
angle of the left triple when `leftWrist.y < rightWrist.y` and the angle of
the right triple otherwise, equal heights included; with left wrist height
0.3 and right wrist height 0.5 it uses the left angle. -/
theorem calculateExercise_selects (M : JSMath R) (post : Transport R) (s : Component R)
    (lm : List (Landmark R)) (ls le lw rs re rw : Landmark R)
    (h11 : lm[11]? = some ls) (h13 : lm[13]? = some le) (h15 : lm[15]? = some lw)
    (h12 : lm[12]? = some rs) (h14 : lm[14]? = some re) (h16 : lm[16]? = some rw) :
    ∃ (θ : R) (s1 : Component R),
      (calculateExercise M post ⟨some lm⟩).exec s = (Except.ok (), s1) ∧
      s1.feedback = classifyFeedback θ ∧
      s1.performanceScore = computeScore θ ∧
      s1.posted = s.posted ++ [θ] ∧
      (lw.y < rw.y → θ = calculateAngle M ls le lw) ∧
      (¬ lw.y < rw.y → θ = calculateAngle M rs re rw) ∧
      (lw.y = rw.y → θ = calculateAngle M rs re rw) ∧
      (lw.y = 0.3 → rw.y = 0.5 → θ = calculateAngle M ls le lw) := by
  refine ⟨if lw.y < rw.y then calculateAngle M ls le lw else calculateAngle M rs re rw,
    ((calculateExercise M post ⟨some lm⟩).exec s).2, ?_, ?_, ?_, ?_, ?_, ?_, ?_, ?_⟩
  · rw [calculateExercise_exec M post s lm ls le lw rs re rw h11 h13 h15 h12 h14 h16,
      sendRepData_exec]
    cases post _ <;> rfl
  · rw [calculateExercise_exec M post s lm ls le lw rs re rw h11 h13 h15 h12 h14 h16,
      sendRepData_exec]
    cases post _ <;> rfl
  · rw [calculateExercise_exec M post s lm ls le lw rs re rw h11 h13 h15 h12 h14 h16,
      sendRepData_exec]
    cases post _ <;> rfl
  · rw [calculateExercise_exec M post s lm ls le lw rs re rw h11 h13 h15 h12 h14 h16,
      sendRepData_exec]
    cases post _ <;> rfl
  · intro h
    rw [if_pos h]
  · intro h
    rw [if_neg h]
  · intro h
    rw [if_neg (by rw [h]; exact lt_irrefl _)]
  · intro h1 h2
    rw [if_pos (by rw [h1, h2]; norm_num)]

/-- C8: on a frame without `poseLandmarks` the results handler only sets the
feedback to "No person detected": nothing is posted, and `performanceScore`
and `repCount` keep their values. -/
theorem onResults_noPerson (M : JSMath R) (post : Transport R) (s : Component R) :
    (onResults M post ⟨none⟩).exec s =
      (Except.ok (), { s with feedback := "No person detected" }) ∧
    ((onResults M post ⟨none⟩).exec s).2.feedback = "No person detected" ∧
    ((onResults M post ⟨none⟩).exec s).2.posted = s.posted ∧
    ((onResults M post ⟨none⟩).exec s).2.performanceScore = s.performanceScore ∧
    ((onResults M post ⟨none⟩).exec s).2.repCount = s.repCount := by
  have h : (onResults M post ⟨none⟩).exec s =
      (Except.ok (), { s with feedback := "No person detected" }) := by
    simp [onResults, setFeedback, exec_update]
  rw [h]
  exact ⟨rfl, rfl, rfl, rfl, rfl⟩

end Frame

/-- C7 at the sample frame, whose left wrist is at height 0.3 and right
wrist at height 0.5: the angle posted is the one of the left triple. -/
theorem calculateExercise_selects_witness :
    ∃ s1 : Component ℝ,
      (calculateExercise realMath (replyWith 1) ⟨some (sampleFrame ℝ)⟩).exec
          (Component.initial ℝ) = (Except.ok (), s1) ∧
      s1.posted = [calculateAngle realMath ⟨0.6, 0.2⟩ ⟨0.6, 0.4⟩ ⟨0.8, 0.3⟩] := by
  obtain ⟨θ, s1, h1, -, -, h4, -, -, -, h8⟩ :=
    calculateExercise_selects realMath (replyWith 1) (Component.initial ℝ) (sampleFrame ℝ)
      ⟨0.6, 0.2⟩ ⟨0.6, 0.4⟩ ⟨0.8, 0.3⟩ ⟨0.4, 0.2⟩ ⟨0.4, 0.4⟩ ⟨0.4, 0.5⟩ rfl rfl rfl rfl rfl rfl
  refine ⟨s1, h1, ?_⟩
  rw [h4, h8 rfl rfl]
  rfl

/-! ## The score on the angles that occur -/

theorem computeScore_of_mem_range {θ : ℝ} (h0 : 0 ≤ θ) (h180 : θ ≤ 180) :
    computeScore θ = 100 - |θ - 90| ∧ 10 ≤ computeScore θ ∧ computeScore θ ≤ 100 := by
  have habs : |θ - 90| ≤ 90 := abs_le.mpr ⟨by linarith, by linarith⟩
  have hnn : 0 ≤ |θ - 90| := abs_nonneg _
  have h : computeScore θ = 100 - |θ - 90| := max_eq_right (by linarith)
  rw [h]
  exact ⟨rfl, by linarith, by linarith⟩

/-- C10: over the reals, on every landmark set containing landmarks 11 to
16, `calculateExercise` completes and the performance score it sets lies in
`[10, 100]`: the angle `θ` it uses lies in `[0, 180]`, the score equals
`100 - |θ - 90|` (the floor at 0 is not the active branch), and the score
is not 0. -/
theorem performanceScore_mem_range (post : Transport ℝ) (s : Component ℝ)
    (lm : List (Landmark ℝ)) (h : 17 ≤ lm.length) :
    ∃ (θ : ℝ) (s1 : Component ℝ),
      (calculateExercise realMath post ⟨some lm⟩).exec s = (Except.ok (), s1) ∧
      s1.posted = s.posted ++ [θ] ∧
      0 ≤ θ ∧ θ ≤ 180 ∧
      s1.performanceScore = computeScore θ ∧
      s1.performanceScore = 100 - |θ - 90| ∧
      10 ≤ s1.performanceScore ∧ s1.performanceScore ≤ 100 ∧
      s1.performanceScore ≠ 0 := by
  have h11 : lm[11]? = some lm[11] := List.getElem?_eq_getElem (by omega)
  have h12 : lm[12]? = some lm[12] := List.getElem?_eq_getElem (by omega)
  have h13 : lm[13]? = some lm[13] := List.getElem?_eq_getElem (by omega)
  have h14 : lm[14]? = some lm[14] := List.getElem?_eq_getElem (by omega)
  have h15 : lm[15]? = some lm[15] := List.getElem?_eq_getElem (by omega)
  have h16 : lm[16]? = some lm[16] := List.getElem?_eq_getElem (by omega)
  have hrun := calculateExercise_exec realMath post s lm _ _ _ _ _ _ h11 h13 h15 h12 h14 h16
  rw [sendRepData_exec] at hrun
  generalize hθ : (if lm[15].y < lm[16].y then calculateAngle realMath lm[11] lm[13] lm[15]
    else calculateAngle realMath lm[12] lm[14] lm[16]) = θ at hrun
  have hrange : 0 ≤ θ ∧ θ ≤ 180 := by
    rw [← hθ]
    split_ifs
    · exact calculateAngle_real_bounds _ _ _
    · exact calculateAngle_real_bounds _ _ _
  obtain ⟨e1, e2, e3⟩ := computeScore_of_mem_range hrange.1 hrange.2
  refine ⟨θ, ((calculateExercise realMath post ⟨some lm⟩).exec s).2, ?_, ?_, hrange.1, hrange.2,
    ?_, ?_, ?_, ?_, ?_⟩
  · rw [hrun]
    cases post θ <;> rfl
  · rw [hrun]
    cases post θ <;> rfl
  · rw [hrun]
    cases post θ <;> rfl
  · rw [hrun, ← e1]
    cases post θ <;> rfl
  · rw [hrun]
    cases post θ <;> exact e2
  · rw [hrun]
    cases post θ <;> exact e3
  · rw [hrun]
    have hne : computeScore θ ≠ 0 := by linarith
    cases post θ <;> exact hne

/-- C10 at the sample frame, from the initial component state. -/
theorem performanceScore_mem_range_witness :
    17 ≤ (sampleFrame ℝ).length ∧
    ∃ (θ : ℝ) (s1 : Component ℝ),
      (calculateExercise realMath (failWith "Network Error") ⟨some (sampleFrame ℝ)⟩).exec
          (Component.initial ℝ) = (Except.ok (), s1) ∧
      s1.posted = (Component.initial ℝ).posted ++ [θ] ∧
      0 ≤ θ ∧ θ ≤ 180 ∧
      s1.performanceScore = computeScore θ ∧
      s1.performanceScore = 100 - |θ - 90| ∧
      10 ≤ s1.performanceScore ∧ s1.performanceScore ≤ 100 ∧
      s1.performanceScore ≠ 0 :=
  ⟨by decide,
    performanceScore_mem_range (failWith "Network Error") (Component.initial ℝ) (sampleFrame ℝ)
      (by decide)⟩

end Sajilo
